import Mathlib

/-!
Verification of the conversion backend (`src/backend/src/server.js` and the
queue worker) against its specification.  The JavaScript source is embedded
shallowly: numbers that hold page coordinates become `ℚ`, fallible operations
become `Except`, the ambient filesystem becomes an explicit list of paths, and
the behaviour of external collaborators (Adobe PDF Services, `pdf2json`,
`officegen`, `sharp`, `ffmpeg`) is represented by the success/failure data the
source code branches on.
-/

namespace PdfConvertor

/-! ## Spatial text reconstruction (server.js, `extractPdfTextWithExactFormatting`
and `extractPdfText`)

A positioned run of text on a page.  Both extraction functions build elements
carrying `text`, `x` and `y`; the exact-formatting variant additionally copies
styling fields (`fontSize`, `fontFamily`, `bold`, `italic`) that are never
consulted by the sorting or grouping code, so they are omitted from the model. -/
structure TextElement where
  text : String
  x : ℚ
  y : ℚ
deriving DecidableEq, Repr

/-- The line-grouping tolerance `0.1` appearing in the source comparisons. -/
def epsilon : ℚ := 1 / 10

/-- `Math.abs` on the rational model of JS numbers. -/
def mathAbs (q : ℚ) : ℚ := if q < 0 then -q else q

/-- The sort comparator from the source:
`const yDiff = b.y - a.y; if (Math.abs(yDiff) > 0.1) return yDiff; return a.x - b.x`. -/
def comparator (a b : TextElement) : ℚ :=
  if mathAbs (b.y - a.y) > epsilon then b.y - a.y else a.x - b.x

/-- `a` strictly precedes `b` under the comparator (a negative return value). -/
def sortLt (a b : TextElement) : Bool :=
  decide (comparator a b < 0)

/-- One step of a stable sort: insert `a` before the first element that does not
strictly precede it, so elements the comparator ties keep their input order
(ECMAScript requires `Array.prototype.sort` to be stable). -/
def insertElem (a : TextElement) : List TextElement → List TextElement
  | [] => [a]
  | b :: t => if sortLt b a then b :: insertElem a t else a :: b :: t

/-- The stable sort of `textElements.sort(comparator)`. -/
def sortElements : List TextElement → List TextElement
  | [] => []
  | a :: t => insertElem a (sortElements t)

/-- The grouping loop of the source, scanning the sorted elements while
maintaining `currentLine`, `lastY` and the list of emitted lines:
a new line is started when `lastY !== null && Math.abs(element.y - lastY) > 0.1`,
and a non-empty `currentLine` is emitted when the stream ends. -/
def groupGo (cur : List TextElement) (lastY : Option ℚ)
    (acc : List (List TextElement)) : List TextElement → List (List TextElement)
  | [] => if cur = [] then acc else acc ++ [cur]
  | e :: rest =>
    match lastY with
    | some ly =>
      if mathAbs (e.y - ly) > epsilon then
        if cur = [] then groupGo [e] (some e.y) acc rest
        else groupGo [e] (some e.y) (acc ++ [cur]) rest
      else groupGo (cur ++ [e]) (some e.y) acc rest
    | none => groupGo (cur ++ [e]) (some e.y) acc rest

/-- Group a (sorted) element sequence into lines, as the source loop does. -/
def groupLines (l : List TextElement) : List (List TextElement) :=
  groupGo [] none [] l

/-- Modelled from the spec: group into lines by "starting a new Line whenever
`|currentFragment.y − previousFragment.y| > ε`", used as the clean reference
the source's accumulator loop is proved equal to. -/
def specGroup : List TextElement → List (List TextElement)
  | [] => []
  | [a] => [[a]]
  | a :: b :: l =>
    match specGroup (b :: l) with
    | [] => [[a]]
    | c :: cs =>
      if mathAbs (b.y - a.y) > epsilon then [a] :: c :: cs else (a :: c) :: cs

/-- The per-page reconstruction: sort the page's fragments with the comparator,
then group the sorted sequence into lines. -/
def reconstructPage (l : List TextElement) : List (List TextElement) :=
  groupLines (sortElements l)

/-! ### Helper lemmas about the comparator and the stable sort -/

theorem mathAbs_neg (q : ℚ) : mathAbs (-q) = mathAbs q := by
  unfold mathAbs
  rcases lt_trichotomy q 0 with h | h | h
  · rw [if_neg (by linarith), if_pos h]
  · subst h; norm_num
  · rw [if_pos (by linarith), if_neg (by linarith), neg_neg]

theorem comparator_antisymm (a b : TextElement) :
    comparator b a = -comparator a b := by
  unfold comparator
  rw [show a.y - b.y = -(b.y - a.y) by ring, mathAbs_neg]
  by_cases h : mathAbs (b.y - a.y) > epsilon
  · rw [if_pos h, if_pos h]
  · rw [if_neg h, if_neg h]; ring

theorem sortLt_asymm {a b : TextElement} (h : sortLt a b = true) :
    sortLt b a = false := by
  unfold sortLt at h ⊢
  rw [decide_eq_true_eq] at h
  rw [decide_eq_false_iff_not, comparator_antisymm]
  linarith

/-- The adjacent-order relation the sort establishes: the later element never
strictly precedes the earlier one. -/
def SortStep (a b : TextElement) : Prop := sortLt b a = false

theorem chain'_insertElem {a : TextElement} {l : List TextElement}
    (h : List.Chain' SortStep l) : List.Chain' SortStep (insertElem a l) := by
  induction l with
  | nil => simp [insertElem]
  | cons b t ih =>
    rw [insertElem]
    by_cases hba : sortLt b a = true
    · rw [if_pos hba]
      cases t with
      | nil =>
        simp only [insertElem]
        exact List.chain'_pair.mpr (sortLt_asymm hba)
      | cons c t2 =>
        have hins := ih h.tail
        rw [insertElem] at hins ⊢
        by_cases hca : sortLt c a = true
        · rw [if_pos hca] at hins ⊢
          exact List.chain'_cons.mpr ⟨(List.chain'_cons.mp h).1, hins⟩
        · rw [if_neg hca] at hins ⊢
          exact List.chain'_cons.mpr ⟨sortLt_asymm hba, hins⟩
    · rw [if_neg hba]
      exact List.chain'_cons.mpr ⟨eq_false_of_ne_true hba, h⟩

theorem chain'_sortElements (l : List TextElement) :
    List.Chain' SortStep (sortElements l) := by
  induction l with
  | nil => simp [sortElements]
  | cons a t ih => exact chain'_insertElem ih

/-- A list already in sorted adjacent order is a fixed point of the sort. -/
theorem sortElements_of_chain' {l : List TextElement}
    (h : List.Chain' SortStep l) : sortElements l = l := by
  induction l with
  | nil => rfl
  | cons a t ih =>
    rw [sortElements, ih h.tail]
    cases t with
    | nil => rfl
    | cons b t2 =>
      rw [insertElem, if_neg]
      have := (List.chain'_cons.mp h).1
      simp [SortStep] at this
      simp [this]

theorem sortElements_idem (l : List TextElement) :
    sortElements (sortElements l) = sortElements l :=
  sortElements_of_chain' (chain'_sortElements l)

/-! ### The grouping loop equals the spec's description -/

/-- Continue the current line `c`, whose last element has ordinate `y`,
through the remaining elements. -/
def glue (c : List TextElement) (y : ℚ) : List TextElement → List (List TextElement)
  | [] => [c]
  | e :: rest =>
    if mathAbs (e.y - y) > epsilon then c :: glue [e] e.y rest
    else glue (c ++ [e]) e.y rest

/-- Prepend pending fragments onto the first emitted line. -/
def consHead (c : List TextElement) : List (List TextElement) → List (List TextElement)
  | [] => [c]
  | h :: t => (c ++ h) :: t

theorem groupGo_eq_glue (l : List TextElement) :
    ∀ (c : List TextElement) (y : ℚ) (acc : List (List TextElement)),
      c ≠ [] → groupGo c (some y) acc l = acc ++ glue c y l := by
  induction l with
  | nil =>
    intro c y acc hc
    rw [groupGo, if_neg hc, glue]
  | cons e rest ih =>
    intro c y acc hc
    rw [groupGo, glue]
    by_cases hbr : mathAbs (e.y - y) > epsilon
    · rw [if_pos hbr, if_pos hbr, if_neg hc, ih [e] e.y (acc ++ [c]) (by simp)]
      simp
    · rw [if_neg hbr, if_neg hbr, ih (c ++ [e]) e.y acc (by simp)]

theorem specGroup_cons_cons {b : TextElement} {l : List TextElement}
    {g : List TextElement} {gs : List (List TextElement)}
    (a : TextElement) (h : specGroup (b :: l) = g :: gs) :
    specGroup (a :: b :: l) =
      if mathAbs (b.y - a.y) > epsilon then [a] :: g :: gs else (a :: g) :: gs := by
  rw [specGroup, h]

theorem specGroup_ne_nil (a : TextElement) (l : List TextElement) :
    specGroup (a :: l) ≠ [] := by
  cases l with
  | nil => simp [specGroup]
  | cons b t =>
    rcases h : specGroup (b :: t) with _ | ⟨c, cs⟩
    · rw [specGroup, h]; simp
    · rw [specGroup_cons_cons a h]; split <;> simp

theorem glue_eq_specGroup (l : List TextElement) :
    ∀ (c : List TextElement) (b : TextElement),
      glue (c ++ [b]) b.y l = consHead c (specGroup (b :: l)) := by
  induction l with
  | nil =>
    intro c b
    rw [glue, specGroup, consHead]
  | cons e rest ih =>
    intro c b
    rcases h : specGroup (e :: rest) with _ | ⟨g, gs⟩
    · exact absurd h (specGroup_ne_nil e rest)
    · rw [glue, specGroup_cons_cons b h]
      by_cases hbr : mathAbs (e.y - b.y) > epsilon
      · rw [if_pos hbr, if_pos hbr]
        have h2 := ih [] e
        rw [h, List.nil_append] at h2
        rw [h2]
        simp only [consHead, List.nil_append]
      · rw [if_neg hbr, if_neg hbr]
        have h2 := ih (c ++ [b]) e
        rw [h] at h2
        rw [h2]
        simp only [consHead, List.append_assoc, List.singleton_append]

theorem groupLines_eq_specGroup (l : List TextElement) :
    groupLines l = specGroup l := by
  cases l with
  | nil => rfl
  | cons e rest =>
    rw [groupLines, groupGo]
    simp only [List.nil_append]
    rw [groupGo_eq_glue rest [e] e.y [] (by simp)]
    have h2 := glue_eq_specGroup rest [] e
    rw [List.nil_append] at h2
    simp only [List.nil_append, h2]
    rcases h : specGroup (e :: rest) with _ | ⟨g, gs⟩
    · exact absurd h (specGroup_ne_nil e rest)
    · simp [consHead]

theorem specGroup_flatten (l : List TextElement) :
    (specGroup l).flatten = l := by
  induction l with
  | nil => rfl
  | cons a t ih =>
    cases t with
    | nil => simp [specGroup]
    | cons b t2 =>
      rcases h : specGroup (b :: t2) with _ | ⟨g, gs⟩
      · exact absurd h (specGroup_ne_nil b t2)
      · rw [specGroup_cons_cons a h]
        rw [h] at ih
        by_cases hbr : mathAbs (b.y - a.y) > epsilon
        · rw [if_pos hbr, List.flatten_cons, ih]
          rfl
        · rw [if_neg hbr, List.flatten_cons, List.cons_append]
          rw [List.flatten_cons] at ih
          rw [ih]

theorem groupLines_flatten (l : List TextElement) :
    (groupLines l).flatten = l := by
  rw [groupLines_eq_specGroup, specGroup_flatten]

/-- Modelled from the spec: "Sort fragments by descending `y`, then ascending
`x`", with the tie-break policy "fragments with identical `y` (within ε) retain
left-to-right order by `x`".  Used as the reference the source comparator is
proved equal to. -/
def specSortBefore (a b : TextElement) : Bool :=
  if mathAbs (b.y - a.y) > epsilon then decide (a.y > b.y) else decide (a.x < b.x)

theorem sortLt_eq_specSortBefore (a b : TextElement) :
    sortLt a b = specSortBefore a b := by
  unfold sortLt specSortBefore comparator
  by_cases h : mathAbs (b.y - a.y) > epsilon
  · rw [if_pos h, if_pos h, decide_eq_decide]
    constructor <;> intro <;> linarith
  · rw [if_neg h, if_neg h, decide_eq_decide]
    constructor <;> intro <;> linarith

/-! ## The `pdf2json` data model and `extractPdfText` (server.js)

`pdfParser_dataReady` hands over `pdfData` with `Pages`, each page holding
`Texts`, each text item holding runs `R` whose `T` is the run's text.  The
source checks `if (textRun.T)` (skipping absent/empty text) and then URI-decodes
it; decoding is modelled as the identity on the already-decoded text. -/
structure TextRun where
  T : String
deriving DecidableEq, Repr

structure PdfTextItem where
  x : ℚ
  y : ℚ
  R : List TextRun
deriving DecidableEq, Repr

structure PdfPage where
  Texts : List PdfTextItem
deriving DecidableEq, Repr

structure PdfData where
  Pages : List PdfPage
deriving DecidableEq, Repr

/-- The element-collection loop: for every text item, for every run with
non-empty text, push `{text, x, y}` (the item's coordinates). -/
def pageElements (page : PdfPage) : List TextElement :=
  page.Texts.foldl
    (fun acc item =>
      acc ++ item.R.filterMap
        (fun run =>
          if run.T = "" then none
          else some { text := run.T, x := item.x, y := item.y }))
    []

/-- The text-building loop of `extractPdfText`: append `element.text + ' '` to
`currentLine`, and when `lastY !== null && Math.abs(element.y - lastY) > 0.1`
first flush the trimmed current line (if non-blank) followed by a newline;
the final non-blank line is flushed when the stream ends. -/
def textLineGo (acc cur : String) (lastY : Option ℚ) : List TextElement → String
  | [] => if cur.trim = "" then acc else acc ++ cur.trim ++ "\n"
  | e :: rest =>
    match lastY with
    | some ly =>
      if mathAbs (e.y - ly) > epsilon then
        let acc2 := if cur.trim = "" then acc else acc ++ cur.trim ++ "\n"
        textLineGo acc2 (e.text ++ " ") (some e.y) rest
      else textLineGo acc (cur ++ e.text ++ " ") (some e.y) rest
    | none => textLineGo acc (cur ++ e.text ++ " ") (some e.y) rest

/-- The whole-document text: every page contributes a `--- Page N ---` header,
and pages with text items contribute their sorted, line-grouped text. -/
def pdfFullText (d : PdfData) : String :=
  d.Pages.enum.foldl
    (fun acc pair =>
      let acc2 := acc ++ "\n--- Page " ++ toString (pair.1 + 1) ++ " ---\n"
      if pair.2.Texts.length > 0 then
        textLineGo acc2 "" none (sortElements (pageElements pair.2))
      else acc2)
    ""

/-- `extractPdfText` as seen by its caller: the promise's `dataError` handler
resolves (never rejects) with a fixed placeholder, and the `dataReady` handler
resolves with `fullText || 'No text content found in PDF.'`. -/
def extractPdfText (parseOutcome : Except String PdfData) : String :=
  match parseOutcome with
  | .error _ => "Unable to extract text from this PDF file."
  | .ok d =>
    let fullText := pdfFullText d
    if fullText = "" then "No text content found in PDF." else fullText

/-! ## The pdf-to-word tier chain (server.js)

The environment collects the success/failure behaviour of the external
collaborators the source branches on: whether `getAdobeCredentials()` yields
credentials, whether the Adobe export produces a non-empty output file,
the `pdf2json` parse outcome, and whether the two `officegen` write streams
(fallback document, error report) succeed. -/
structure ConversionEnv where
  adobeConfigured : Bool
  cloudConversionOk : Bool
  parseResult : Except String PdfData
  fallbackWriteOk : Bool
  fallbackWriteError : String
  reportWriteOk : Bool
  sharpOk : Bool
  sharpError : String
  imagePdfOk : Bool
  imagePdfError : String
  ffmpegOk : Bool
  videoCopyOk : Bool
  videoCopyError : String
  adobeCompressOk : Bool
deriving Repr

/-- `convertPdfToWordAdobe`: returns `false` straight away when credentials are
missing/invalid (`if (!credentials) ... return false`), otherwise reports
whether the cloud conversion produced a verified output file; every internal
error is caught and also surfaces as `false`. -/
def convertPdfToWordAdobe (env : ConversionEnv) : Bool :=
  if env.adobeConfigured then env.cloudConversionOk else false

/-- `createErrorReport`: writes `outputs/{ts}_error_report.docx` and returns its
path; if even that write fails it throws `Conversion failed: {message}`. -/
def createErrorReport (env : ConversionEnv) (ts : Nat) (errMsg : String) :
    Except String String :=
  if env.reportWriteOk then .ok ("outputs/" ++ toString ts ++ "_error_report.docx")
  else .error ("Conversion failed: " ++ errMsg)

/-- The body text `officegen` embeds into the fallback document: the result of
`extractPdfText` on the input file. -/
def fallbackDocText (env : ConversionEnv) : String :=
  extractPdfText env.parseResult

/-- `convertPdfToWordFallback`: extract text (which never throws), write
`outputs/{ts}_fallback.docx`; any error is caught and answered by
`createErrorReport`. -/
def convertPdfToWordFallback (env : ConversionEnv) (ts : Nat) : Except String String :=
  if env.fallbackWriteOk then .ok ("outputs/" ++ toString ts ++ "_fallback.docx")
  else createErrorReport env ts env.fallbackWriteError

/-- `convertPdfToWord`: try the Adobe tier; on its failure run the local
fallback tier; an error escaping the fallback (a failed error-report write)
is caught once more and answered by a second `createErrorReport` attempt. -/
def convertPdfToWord (env : ConversionEnv) (ts : Nat) : Except String String :=
  if convertPdfToWordAdobe env then .ok ("outputs/" ++ toString ts ++ "_converted.docx")
  else
    match convertPdfToWordFallback env ts with
    | .ok p => .ok p
    | .error msg => createErrorReport env ts msg

/-! ## Compression profile tables (server.js `compressImage` / `compressVideo`) -/

structure ImageCompressionSettings where
  quality : Nat
  maxWidth : Nat
  maxHeight : Nat
  description : String
deriving DecidableEq, Repr

def mediumImageSettings : ImageCompressionSettings :=
  { quality := 75, maxWidth := 1920, maxHeight := 1080,
    description := "Medium quality - Balanced size and quality" }

def customImageSettings : ImageCompressionSettings :=
  { quality := 60, maxWidth := 1600, maxHeight := 900,
    description := "Custom quality - User defined settings" }

def lowImageSettings : ImageCompressionSettings :=
  { quality := 50, maxWidth := 1280, maxHeight := 720,
    description := "Low quality - Smallest file size" }

def highImageSettings : ImageCompressionSettings :=
  { quality := 90, maxWidth := 2560, maxHeight := 1440,
    description := "High quality - Best quality with some compression" }

/-- The `compressionSettings` object literal of `compressImage`, as a lookup
over its own keys. -/
def imageCompressionSettings : String → Option ImageCompressionSettings
  | "low" => some lowImageSettings
  | "medium" => some mediumImageSettings
  | "high" => some highImageSettings
  | "custom" => some customImageSettings
  | _ => none

/-- `compressionSettings[compressionLevel] || compressionSettings.medium`. -/
def resolveImageSettings (level : String) : ImageCompressionSettings :=
  (imageCompressionSettings level).getD mediumImageSettings

structure VideoCompressionSettings where
  resolution : String
  videoBitrate : String
  audioBitrate : String
  crf : Nat
  preset : String
  description : String
deriving DecidableEq, Repr

def mediumVideoSettings : VideoCompressionSettings :=
  { resolution := "1280x720", videoBitrate := "1000k", audioBitrate := "128k",
    crf := 23, preset := "medium",
    description := "Medium quality - Balanced size and quality (720p)" }

def lowVideoSettings : VideoCompressionSettings :=
  { resolution := "854x480", videoBitrate := "500k", audioBitrate := "96k",
    crf := 28, preset := "fast",
    description := "Low quality - Smallest file size (480p)" }

def highVideoSettings : VideoCompressionSettings :=
  { resolution := "1920x1080", videoBitrate := "2000k", audioBitrate := "192k",
    crf := 20, preset := "slow",
    description := "High quality - Best quality with compression (1080p)" }

def customVideoSettings : VideoCompressionSettings :=
  { resolution := "1024x576", videoBitrate := "750k", audioBitrate := "112k",
    crf := 25, preset := "medium",
    description := "Custom quality - User defined settings" }

/-- The `compressionSettings` object literal of `compressVideo`. -/
def videoCompressionSettings : String → Option VideoCompressionSettings
  | "low" => some lowVideoSettings
  | "medium" => some mediumVideoSettings
  | "high" => some highVideoSettings
  | "custom" => some customVideoSettings
  | _ => none

def resolveVideoSettings (level : String) : VideoCompressionSettings :=
  (videoCompressionSettings level).getD mediumVideoSettings

/-- `compressImage`: resolve the profile, run the `sharp` pipeline with it; the
pair records the output path and the profile actually used. -/
def compressImage (env : ConversionEnv) (ts : Nat) (level : String) :
    Except String (String × ImageCompressionSettings) :=
  let settings := resolveImageSettings level
  if env.sharpOk then .ok ("outputs/" ++ toString ts ++ "_compressed.jpg", settings)
  else .error ("Image compression failed: " ++ env.sharpError)

/-- `compressVideo`: resolve the profile, try ffmpeg, fall back to a raw file
copy; if the copy also fails the fallback's error is wrapped twice, once by
`compressVideoFallback` and once by `compressVideo`'s own catch. -/
def compressVideo (env : ConversionEnv) (ts : Nat) (level : String) :
    Except String String :=
  let _settings := resolveVideoSettings level
  if env.ffmpegOk then .ok ("outputs/" ++ toString ts ++ "_compressed.mp4")
  else if env.videoCopyOk then .ok ("outputs/" ++ toString ts ++ "_video_copy.mp4")
  else .error ("Video compression failed: Video fallback processing failed: "
      ++ env.videoCopyError)

/-- `convertImageToPdf`: sharp + pdf-lib; errors are wrapped and rethrown. -/
def convertImageToPdf (env : ConversionEnv) (ts : Nat) : Except String String :=
  if env.imagePdfOk then .ok ("outputs/" ++ toString ts ++ "_converted.pdf")
  else .error ("Image to PDF conversion failed: " ++ env.imagePdfError)

/-- `compressPdf`: tries the Adobe compression; its fallback branch calls
`compressPdfFallback`, which is not defined anywhere in server.js, so that
branch throws a `ReferenceError` that the catch wraps. -/
def compressPdf (env : ConversionEnv) (ts : Nat) : Except String String :=
  if env.adobeConfigured && env.adobeCompressOk then
    .ok ("outputs/" ++ toString ts ++ "_compressed.pdf")
  else .error ("PDF compression failed: compressPdfFallback is not defined")

/-! ## Dispatch, `processFile` and the `/api/convert` route (server.js) -/

structure UploadedFile where
  path : String
  originalname : String
deriving DecidableEq, Repr

structure ProcessResult where
  outputPath : String
  originalName : String
  type : String
  compressionLevel : String
deriving DecidableEq, Repr

/-- The five registered conversion types of the `processFile` switch. -/
def knownConversionTypes : List String :=
  ["pdf-to-word", "image-to-pdf", "compress-image", "compress-video", "compress-pdf"]

/-- The `switch (type)` of `processFile`: sequential case tests ending in
`default: throw new Error(...)`. -/
def runConversion (env : ConversionEnv) (type level : String) (ts : Nat) :
    Except String String :=
  if type = "pdf-to-word" then convertPdfToWord env ts
  else if type = "image-to-pdf" then convertImageToPdf env ts
  else if type = "compress-image" then (compressImage env ts level).map Prod.fst
  else if type = "compress-video" then compressVideo env ts level
  else if type = "compress-pdf" then compressPdf env ts
  else .error ("Unknown conversion type: " ++ type)

/-- `if (fs.existsSync(p)) fs.unlinkSync(p)` on the modelled filesystem. -/
def removeFile (p : String) (fs : List String) : List String :=
  if p ∈ fs then fs.filter (fun q => q != p) else fs

/-- `processFile`: run the switch; on success the output file exists, the
uploaded input is unlinked if present, and the result record is returned; a
conversion error (or the unknown-type error, raised before any conversion
runs) is rethrown with the filesystem untouched. -/
def processFile (env : ConversionEnv) (file : UploadedFile) (type level : String)
    (ts : Nat) (fs : List String) : Except String ProcessResult × List String :=
  match runConversion env type level ts with
  | .ok outputPath =>
    (.ok { outputPath := outputPath, originalName := file.originalname,
           type := type, compressionLevel := level },
     removeFile file.path (outputPath :: fs))
  | .error e => (.error e, fs)

inductive ApiResponse where
  | success (filename originalName : String)
  | failure (error : String)
deriving DecidableEq, Repr

/-- The `/api/convert` handler: run `processFile`; afterwards — on the success
path and in the catch block alike — unlink the uploaded file if it still
exists, then respond. -/
def apiConvert (env : ConversionEnv) (file : UploadedFile) (type level : String)
    (ts : Nat) (fs : List String) : ApiResponse × List String :=
  match processFile env file type level ts fs with
  | (.ok r, fs1) => (.success r.outputPath r.originalName, removeFile file.path fs1)
  | (.error e, fs1) => (.failure e, removeFile file.path fs1)

/-! ## The queue worker (`src/unnamed/part_000`) -/

inductive WorkerJobKind where
  | pdfToWord | imageToPdf | compressImage | compressVideo | compressPdf
deriving DecidableEq, Repr

/-- The worker's `switch (type)`, whose default throws
`Unknown job type: {type}`. -/
def workerSwitch (type : String) : Except String WorkerJobKind :=
  if type = "pdf-to-word" then .ok .pdfToWord
  else if type = "image-to-pdf" then .ok .imageToPdf
  else if type = "compress-image" then .ok .compressImage
  else if type = "compress-video" then .ok .compressVideo
  else if type = "compress-pdf" then .ok .compressPdf
  else .error ("Unknown job type: " ++ type)

structure WorkerJobData where
  filePath : String
  originalName : String
deriving DecidableEq, Repr

structure WorkerEnv where
  docWriteOk : Bool
  docWriteError : String
  ffmpegOk : Bool
  ffmpegError : String
deriving DecidableEq, Repr

structure WorkerResult where
  status : String
  type : String
  outputFile : String
  originalName : String
deriving DecidableEq, Repr

/-- The worker's `convertPdfToWord`: write the document, then — only on the
success path, inside the `try` — unlink the input file; the `catch` rethrows
without any cleanup. -/
def workerConvertPdfToWord (env : WorkerEnv) (d : WorkerJobData) (now : Nat)
    (fs : List String) : Except String WorkerResult × List String :=
  let outputPath := "outputs/" ++ toString now ++ "_converted.docx"
  if env.docWriteOk then
    (.ok { status := "completed", type := "pdf-to-word", outputFile := outputPath,
           originalName := d.originalName },
     removeFile d.filePath (outputPath :: fs))
  else (.error env.docWriteError, fs)

/-- The worker's `compressVideo`: same shape — cleanup only on success. -/
def workerCompressVideo (env : WorkerEnv) (d : WorkerJobData) (now : Nat)
    (fs : List String) : Except String WorkerResult × List String :=
  let outputPath := "outputs/" ++ toString now ++ "_compressed.mp4"
  if env.ffmpegOk then
    (.ok { status := "completed", type := "compress-video", outputFile := outputPath,
           originalName := d.originalName },
     removeFile d.filePath (outputPath :: fs))
  else (.error env.ffmpegError, fs)

theorem not_mem_removeFile (p : String) (fs : List String) :
    p ∉ removeFile p fs := by
  unfold removeFile
  by_cases h : p ∈ fs
  · rw [if_pos h]
    intro hmem
    have h2 := (List.mem_filter.mp hmem).2
    simp at h2
  · rw [if_neg h]
    exact h

/-! ## Concrete fixtures used by the claims -/

def fragA : TextElement := { text := "A", x := 10, y := 10 }

def fragB : TextElement := { text := "B", x := 50, y := 10 }

def fragC : TextElement := { text := "C", x := 0, y := 20 }

def frag1000 : TextElement := { text := "p", x := 0, y := 10 }

def frag1005 : TextElement := { text := "q", x := 0, y := 10.05 }

def frag102 : TextElement := { text := "r", x := 0, y := 10.2 }

def emptyPdfData : PdfData := { Pages := [] }

def sampleFile : UploadedFile :=
  { path := "uploads/1700000000000_sample.pdf", originalname := "sample.pdf" }

/-- An environment where Adobe credentials are absent, the PDF parse fails, and
the local document writes succeed. -/
def envUnconfigured : ConversionEnv :=
  { adobeConfigured := false, cloudConversionOk := false,
    parseResult := .error "Invalid PDF structure",
    fallbackWriteOk := true, fallbackWriteError := "write stream error",
    reportWriteOk := true, sharpOk := true, sharpError := "sharp failed",
    imagePdfOk := true, imagePdfError := "embed failed", ffmpegOk := true,
    videoCopyOk := true, videoCopyError := "copy failed", adobeCompressOk := false }

/-- An environment where both the cloud tier and the local fallback write fail,
but the error-report write succeeds. -/
def envBothFail : ConversionEnv :=
  { adobeConfigured := false, cloudConversionOk := false,
    parseResult := .error "Invalid PDF structure",
    fallbackWriteOk := false, fallbackWriteError := "write stream error",
    reportWriteOk := true, sharpOk := true, sharpError := "sharp failed",
    imagePdfOk := true, imagePdfError := "embed failed", ffmpegOk := true,
    videoCopyOk := true, videoCopyError := "copy failed", adobeCompressOk := false }

def workerEnvFailing : WorkerEnv :=
  { docWriteOk := false, docWriteError := "write stream error",
    ffmpegOk := true, ffmpegError := "ffmpeg exited with code 1" }

def workerEnvOk : WorkerEnv :=
  { docWriteOk := true, docWriteError := "write stream error",
    ffmpegOk := true, ffmpegError := "ffmpeg exited with code 1" }

def workerJob : WorkerJobData :=
  { filePath := "uploads/1700000000000_sample.pdf", originalName := "sample.pdf" }

/-! ## The claims -/

/-- C1: for every page, the reconstructor sorts the page's fragments (by
descending `y` and, within the ε band, ascending `x` — the comparator equals
the spec's ordering) before grouping; on the fragments
("B",x=50,y=10), ("A",x=10,y=10), ("C",x=0,y=20) the sorted order is
C, A, B and the reconstructed page is [Line[C], Line[A,B]]. -/
theorem claim_c1 :
    (∀ l : List TextElement, reconstructPage l = groupLines (sortElements l)) ∧
    (∀ a b : TextElement, sortLt a b = specSortBefore a b) ∧
    sortElements [fragB, fragA, fragC] = [fragC, fragA, fragB] ∧
    reconstructPage [fragB, fragA, fragC] = [[fragC], [fragA, fragB]] := by
  refine ⟨fun l => rfl, sortLt_eq_specSortBefore, ?_, ?_⟩
  · norm_num [sortElements, insertElem, sortLt, comparator, mathAbs, epsilon,
      fragA, fragB, fragC]
  · norm_num [reconstructPage, sortElements, insertElem, sortLt, comparator,
      mathAbs, epsilon, groupLines, groupGo, fragA, fragB, fragC]
    simp

/-- C2: the grouping loop starts a new Line exactly when the absolute
difference of consecutive `y`s exceeds ε = 0.1 (it equals the spec's chunking
`specGroup`); fragments at y=10.00 and y=10.05 share one Line, while
fragments at y=10.00 and y=10.2 land in two distinct Lines. -/
theorem claim_c2 :
    (∀ l : List TextElement, groupLines l = specGroup l) ∧
    reconstructPage [frag1000, frag1005] = [[frag1000, frag1005]] ∧
    reconstructPage [frag1000, frag102] = [[frag102], [frag1000]] := by
  refine ⟨groupLines_eq_specGroup, ?_, ?_⟩
  · norm_num [reconstructPage, sortElements, insertElem, sortLt, comparator,
      mathAbs, epsilon, groupLines, groupGo, frag1000, frag1005]
    simp
  · norm_num [reconstructPage, sortElements, insertElem, sortLt, comparator,
      mathAbs, epsilon, groupLines, groupGo, frag1000, frag102]

/-- C3: reconstruction is idempotent with respect to its own flattening: the
flattened output re-read as fragments (same texts and positions, in flattened
order) reconstructs to the identical line grouping. -/
theorem claim_c3 (l : List TextElement) :
    reconstructPage ((reconstructPage l).flatten) = reconstructPage l := by
  simp only [reconstructPage]
  rw [groupLines_flatten, sortElements_idem]

/-- C4: a job whose type is outside the five registered conversion types fails
immediately with the `Unknown conversion type` error, with the filesystem
untouched (no conversion tier ran); the queue worker's switch likewise fails
with `Unknown job type`. -/
theorem claim_c4 (env : ConversionEnv) (file : UploadedFile) (level : String)
    (ts : Nat) (fs : List String) (t : String)
    (h : t ∉ knownConversionTypes) :
    processFile env file t level ts fs =
      (.error ("Unknown conversion type: " ++ t), fs) ∧
    workerSwitch t = .error ("Unknown job type: " ++ t) := by
  simp only [knownConversionTypes, List.mem_cons, List.mem_singleton, not_or] at h
  obtain ⟨h1, h2, h3, h4, h5⟩ := h
  constructor
  · simp [processFile, runConversion, h1, h2, h3, h4, h5]
  · simp [workerSwitch, h1, h2, h3, h4, h5]

theorem claim_c4_witness :
    "docx-to-text" ∉ knownConversionTypes ∧
    (processFile envUnconfigured sampleFile "docx-to-text" "medium" 1 [] =
        (.error ("Unknown conversion type: " ++ "docx-to-text"), []) ∧
      workerSwitch "docx-to-text" = .error ("Unknown job type: " ++ "docx-to-text")) :=
  ⟨by decide,
   claim_c4 envUnconfigured sampleFile "medium" 1 [] "docx-to-text" (by decide)⟩

/-- C5: with Adobe unconfigured, the cloud tier reports failure immediately
(no retry — the cloud outcome is never consulted, as the theorem holds for
every `cloudConversionOk`), and the job's result is exactly the local
text-extraction fallback tier's outcome. -/
theorem claim_c5 (env : ConversionEnv) (ts : Nat)
    (h1 : env.adobeConfigured = false) (h2 : env.fallbackWriteOk = true) :
    convertPdfToWordAdobe env = false ∧
    convertPdfToWord env ts = convertPdfToWordFallback env ts ∧
    convertPdfToWord env ts = .ok ("outputs/" ++ toString ts ++ "_fallback.docx") := by
  have ha : convertPdfToWordAdobe env = false := by
    simp [convertPdfToWordAdobe, h1]
  have hf : convertPdfToWordFallback env ts =
      .ok ("outputs/" ++ toString ts ++ "_fallback.docx") := by
    simp [convertPdfToWordFallback, h2]
  refine ⟨ha, ?_, ?_⟩ <;> simp [convertPdfToWord, ha, hf]

theorem claim_c5_witness :
    envUnconfigured.adobeConfigured = false ∧
    envUnconfigured.fallbackWriteOk = true ∧
    (convertPdfToWordAdobe envUnconfigured = false ∧
      convertPdfToWord envUnconfigured 2 = convertPdfToWordFallback envUnconfigured 2 ∧
      convertPdfToWord envUnconfigured 2 =
        .ok ("outputs/" ++ toString 2 ++ "_fallback.docx")) :=
  ⟨rfl, rfl, claim_c5 envUnconfigured 2 rfl rfl⟩

/-- C6: when the cloud tier and the local fallback tier both fail, the
diagnostic-report tier produces the failure-report artifact and the job's
result is that artifact, as a completed-looking outcome; only when even the
report write fails does a hard `Conversion failed` error reach the caller. -/
theorem claim_c6 (env : ConversionEnv) (ts : Nat)
    (h1 : convertPdfToWordAdobe env = false) (h2 : env.fallbackWriteOk = false) :
    (env.reportWriteOk = true →
      convertPdfToWord env ts =
        .ok ("outputs/" ++ toString ts ++ "_error_report.docx")) ∧
    (env.reportWriteOk = false →
      convertPdfToWord env ts =
        .error ("Conversion failed: " ++
          ("Conversion failed: " ++ env.fallbackWriteError))) := by
  constructor <;> intro h3 <;>
    simp [convertPdfToWord, convertPdfToWordFallback, createErrorReport, h1, h2, h3]

theorem claim_c6_witness :
    convertPdfToWordAdobe envBothFail = false ∧
    envBothFail.fallbackWriteOk = false ∧
    envBothFail.reportWriteOk = true ∧
    convertPdfToWord envBothFail 3 =
      .ok ("outputs/" ++ toString 3 ++ "_error_report.docx") :=
  ⟨rfl, rfl, rfl, (claim_c6 envBothFail 3 rfl rfl).1 rfl⟩

/-- C7: a compression level absent from the profile table silently resolves to
the medium profile (quality 75, 1920×1080) and the image compression succeeds
with it; the video table has the same fallback-to-medium behaviour. -/
theorem claim_c7 (level : String) (env : ConversionEnv) (ts : Nat)
    (h1 : imageCompressionSettings level = none) (h2 : env.sharpOk = true) :
    resolveImageSettings level = mediumImageSettings ∧
    compressImage env ts level =
      .ok ("outputs/" ++ toString ts ++ "_compressed.jpg", mediumImageSettings) ∧
    mediumImageSettings.quality = 75 ∧ mediumImageSettings.maxWidth = 1920 ∧
    mediumImageSettings.maxHeight = 1080 ∧
    (∀ lvl : String, videoCompressionSettings lvl = none →
      resolveVideoSettings lvl = mediumVideoSettings) := by
  have hr : resolveImageSettings level = mediumImageSettings := by
    simp [resolveImageSettings, h1]
  refine ⟨hr, ?_, rfl, rfl, rfl, ?_⟩
  · simp [compressImage, hr, h2]
  · intro lvl hl
    simp [resolveVideoSettings, hl]

theorem claim_c7_witness :
    imageCompressionSettings "bogus" = none ∧
    envUnconfigured.sharpOk = true ∧
    compressImage envUnconfigured 4 "bogus" =
      .ok ("outputs/" ++ toString 4 ++ "_compressed.jpg", mediumImageSettings) :=
  ⟨rfl, rfl, (claim_c7 "bogus" envUnconfigured 4 rfl rfl).2.1⟩

/-- C8 counterexample: in the queue worker, a pdf-to-word job whose document
write fails reaches a terminal (failed) state with the uploaded input file
still present — the input is not deleted on that failure exit path, so the
claim that every processed job deletes its input on both exit paths is false. -/
theorem claim_c8_counterexample :
    (workerConvertPdfToWord workerEnvFailing workerJob 5 [workerJob.filePath]).1 =
      .error "write stream error" ∧
    workerJob.filePath ∈
      (workerConvertPdfToWord workerEnvFailing workerJob 5 [workerJob.filePath]).2 := by
  constructor
  · rfl
  · simp [workerConvertPdfToWord, workerEnvFailing]

/-- C8 amended: the HTTP conversion route deletes the uploaded input file on
both the success and the failure exit path, while the queue worker's
conversion functions delete it only on the success path. -/
theorem claim_c8_amended (env : ConversionEnv) (file : UploadedFile)
    (type level : String) (ts : Nat) (fs : List String)
    (wenv : WorkerEnv) (d : WorkerJobData) (now : Nat) (wfs : List String)
    (h : wenv.docWriteOk = true) :
    file.path ∉ (apiConvert env file type level ts fs).2 ∧
    d.filePath ∉ (workerConvertPdfToWord wenv d now wfs).2 := by
  constructor
  · unfold apiConvert
    rcases hp : processFile env file type level ts fs with ⟨res, fs1⟩
    cases res <;> exact not_mem_removeFile _ _
  · simp only [workerConvertPdfToWord, h, if_true]
    exact not_mem_removeFile _ _

theorem claim_c8_amended_witness :
    workerEnvOk.docWriteOk = true ∧
    (sampleFile.path ∉
        (apiConvert envUnconfigured sampleFile "compress-image" "medium" 6
          [sampleFile.path]).2 ∧
      workerJob.filePath ∉
        (workerConvertPdfToWord workerEnvOk workerJob 6 [workerJob.filePath]).2) :=
  ⟨rfl,
   claim_c8_amended envUnconfigured sampleFile "compress-image" "medium" 6
     [sampleFile.path] workerEnvOk workerJob 6 [workerJob.filePath] rfl⟩

/-- C9: the fallback-to-medium default applies only to levels absent from the
table — a present level resolves to its own entry — and the table has a fourth
entry "custom" (quality 60, 1600×900) distinct from medium. -/
theorem claim_c9 (level : String) (s : ImageCompressionSettings)
    (h : imageCompressionSettings level = some s) :
    resolveImageSettings level = s ∧
    imageCompressionSettings "custom" = some customImageSettings ∧
    resolveImageSettings "custom" = customImageSettings ∧
    customImageSettings ≠ mediumImageSettings ∧
    customImageSettings.quality = 60 ∧ customImageSettings.maxWidth = 1600 ∧
    customImageSettings.maxHeight = 900 := by
  refine ⟨?_, rfl, rfl, ?_, rfl, rfl, rfl⟩
  · simp [resolveImageSettings, h]
  · decide

theorem claim_c9_witness :
    imageCompressionSettings "custom" = some customImageSettings ∧
    resolveImageSettings "custom" = customImageSettings :=
  ⟨rfl, (claim_c9 "custom" customImageSettings rfl).1⟩

/-- C10: the local text extraction resolves for every input — a parse failure
yields the fixed placeholder, an empty document yields
`No text content found in PDF.`, and in general the parsed document resolves
to its built text with the empty-text guard — so the fallback tier still
produces its document artifact for malformed input. -/
theorem claim_c10 (env : ConversionEnv) (ts : Nat) (err : String) (d : PdfData)
    (h1 : env.parseResult = .error err) (h2 : env.fallbackWriteOk = true)
    (h3 : d.Pages = []) :
    extractPdfText (.error err) = "Unable to extract text from this PDF file." ∧
    extractPdfText (.ok d) = "No text content found in PDF." ∧
    (∀ d2 : PdfData, extractPdfText (.ok d2) =
      if pdfFullText d2 = "" then "No text content found in PDF."
      else pdfFullText d2) ∧
    fallbackDocText env = "Unable to extract text from this PDF file." ∧
    convertPdfToWordFallback env ts =
      .ok ("outputs/" ++ toString ts ++ "_fallback.docx") := by
  have hA : extractPdfText (.error err) =
      "Unable to extract text from this PDF file." := rfl
  have hB : extractPdfText (.ok d) = "No text content found in PDF." := by
    simp [extractPdfText, pdfFullText, h3]
  have hC : ∀ d2 : PdfData, extractPdfText (.ok d2) =
      if pdfFullText d2 = "" then "No text content found in PDF."
      else pdfFullText d2 := fun d2 => rfl
  have hD : fallbackDocText env = "Unable to extract text from this PDF file." := by
    rw [fallbackDocText, h1]
    exact hA
  have hE : convertPdfToWordFallback env ts =
      .ok ("outputs/" ++ toString ts ++ "_fallback.docx") := by
    simp [convertPdfToWordFallback, h2]
  exact ⟨hA, hB, hC, hD, hE⟩

theorem claim_c10_witness :
    envUnconfigured.parseResult = .error "Invalid PDF structure" ∧
    emptyPdfData.Pages = [] ∧
    (extractPdfText (.ok emptyPdfData) = "No text content found in PDF." ∧
      convertPdfToWordFallback envUnconfigured 7 =
        .ok ("outputs/" ++ toString 7 ++ "_fallback.docx")) :=
  ⟨rfl, rfl,
   (claim_c10 envUnconfigured 7 "Invalid PDF structure" emptyPdfData rfl rfl rfl).2.1,
   (claim_c10 envUnconfigured 7 "Invalid PDF structure" emptyPdfData rfl rfl rfl).2.2.2.2⟩

end PdfConvertor
